import Mathlib

/-!
Verification of the adamOS retrieval–synthesis–rendering pipeline.

Shallow embedding of the core pipeline of the repository:
`backend/core/knowledge/synthesizer.py` (UniversalSynthesizer),
`backend/core/knowledge/sacred_scanner.py` (SacredScanner),
`backend/core/knowledge/knowledge_db.py` (KnowledgeDatabase),
`backend/core/personality/emotional_model.py` (EmotionalModel).

Python floats are modelled as rationals, Python dict entries as structures
whose `Option` fields record whether the corresponding dict key is present,
and fallible steps as `Except String`.
-/

deriving instance DecidableEq for Except

namespace AdamOS

/-- A corpus entry as the pipeline passes it around: the Python dict
`{source, content, tags, score, weight}`.  `score` models `x.get('score', 0)`
(the key may be absent); `weight` is absent (`none`) until
`UniversalSynthesizer._combine_sources` sets it. -/
structure Entry where
  source  : String
  content : String
  tags    : List String
  score   : Option ℚ
  weight  : Option ℚ
deriving Repr, DecidableEq

/-- `x['weight']` as used by the sort key and by `_calculate_confidence`;
entries reaching those places always carry the key, `getD 0` is the total
reading of the lookup. -/
def wOf (e : Entry) : ℚ := e.weight.getD 0

/-- `x.get('score', 0)` (synthesizer.py:73, sacred_scanner.py:138). -/
def sOf (e : Entry) : ℚ := e.score.getD 0

/-- The comparison realised by Python
`sorted(combined, key=lambda x: (x['weight'], x.get('score', 0)), reverse=True)`
(synthesizer.py:72-74): `a` may come before `b` iff the key of `a` is
lexicographically at least the key of `b`.  A stable sort with this total
preorder reproduces Python's stable descending sort. -/
def keyGE (a b : Entry) : Prop :=
  wOf b < wOf a ∨ (wOf b = wOf a ∧ sOf b ≤ sOf a)

instance : DecidableRel keyGE := fun a b => by
  unfold keyGE; infer_instance

instance : IsTotal Entry keyGE := by
  constructor
  intro a b
  rcases lt_trichotomy (wOf a) (wOf b) with h | h | h
  · exact Or.inr (Or.inl h)
  · rcases le_total (sOf a) (sOf b) with hs | hs
    · exact Or.inr (Or.inr ⟨h, hs⟩)
    · exact Or.inl (Or.inr ⟨h.symm, hs⟩)
  · exact Or.inl (Or.inl h)

instance : IsTrans Entry keyGE := by
  constructor
  intro a b c hab hbc
  rcases hab with h1 | ⟨h1, h1s⟩
  · rcases hbc with h2 | ⟨h2, _⟩
    · exact Or.inl (h2.trans h1)
    · exact Or.inl (h2 ▸ h1)
  · rcases hbc with h2 | ⟨h2, h2s⟩
    · exact Or.inl (h1 ▸ h2)
    · exact Or.inr ⟨h2.trans h1, h2s.trans h1s⟩

/-- Auxiliary for Python's substring operator: does the first list start the
second one? -/
def isPrefixCL : List Char → List Char → Bool
  | [], _ => true
  | _ :: _, [] => false
  | a :: as, b :: bs => a == b && isPrefixCL as bs

/-- Auxiliary for Python's substring operator: does the first list occur
contiguously in the second one? -/
def occursIn (needle : List Char) : List Char → Bool
  | [] => isPrefixCL needle []
  | c :: t => isPrefixCL needle (c :: t) || occursIn needle t

/-- Python's `needle in hay` on strings (substring containment). -/
def containsSub (hay needle : String) : Bool :=
  occursIn needle.data hay.data

/-- Python's `str.lower()`, character by character.  `Char.toLower` lowers
ASCII letters only; the repository corpus operations are exercised here on
ASCII data. -/
def lowerStr (s : String) : String :=
  String.mk (s.data.map Char.toLower)

/-- `UniversalSynthesizer.theme_weights.get(source_type, 1.0)`
(synthesizer.py:18-22,67). -/
def themeWeights (s : String) : ℚ :=
  if s = "quran" then 3/2
  else if s = "bible" then 6/5
  else if s = "book" then 1
  else 1

/-- The verses loop of `_combine_sources` (synthesizer.py:60-62): each verse
dict gets `verse['weight'] = self.theme_weights.get('quran', 1.5)`. -/
def weightedVerses (verses : List Entry) : List Entry :=
  verses.map (fun v => { v with weight := some (3/2) })

/-- The wisdom loop of `_combine_sources` (synthesizer.py:65-69): each dict
gets the weight of its lower-cased `source`. -/
def weightedWisdom (wisdom : List Entry) : List Entry :=
  wisdom.map (fun w => { w with weight := some (themeWeights (lowerStr w.source)) })

/-- `UniversalSynthesizer._combine_sources` (synthesizer.py:55-74): annotate
both lists with weights and sort by `(weight, score)` descending, stably. -/
def combineSources (verses wisdom : List Entry) : List Entry :=
  List.insertionSort keyGE (weightedVerses verses ++ weightedWisdom wisdom)

/-- `UniversalSynthesizer._calculate_confidence` (synthesizer.py:129-136). -/
def calculateConfidence : List Entry → ℚ
  | [] => 0
  | s0 :: rest =>
    min (min (7/10 + ((s0 :: rest).length : ℚ) * (1/20)) (19/20) * wOf s0) 1

/-- A word character of the scikit-learn token pattern `\w\w+` (ASCII range;
the inputs exercised here are ASCII). -/
def isWordChar (c : Char) : Bool := c.isAlphanum || c = '_'

/-- Split a character list into its maximal runs of characters satisfying
`p`; `cur` is the reversed run being accumulated. -/
def charRuns (p : Char → Bool) : List Char → List Char → List (List Char)
  | [], cur => if cur = [] then [] else [cur.reverse]
  | c :: cs, cur =>
    if p c then charRuns p cs (c :: cur)
    else if cur = [] then charRuns p cs []
    else cur.reverse :: charRuns p cs []

/-- The scikit-learn `TfidfVectorizer` tokenizer as configured in
`UniversalSynthesizer.__init__` (synthesizer.py:10): lower-case the text,
then keep the maximal word-character runs of length at least two. -/
def tokenize (s : String) : List String :=
  ((charRuns isWordChar (lowerStr s).data []).filter (fun t => 2 ≤ t.length)).map
    (fun t => String.mk t)

/-- The vectorizer vocabulary over a document list: all tokens outside the
stop-word list.  The concrete `stop_words='english'` list lives inside
scikit-learn, not in this repository, so it is a parameter `sw` of the
model; `TfidfVectorizer.fit` raises `ValueError` exactly when this is
empty. -/
def vocab (sw : List String) (texts : List String) : List String :=
  ((texts.map tokenize).flatten).filter (fun t => t ∉ sw)

/-- `UniversalSynthesizer.theme_hierarchy` (synthesizer.py:11-17), in dict
insertion order. -/
def themeHierarchySyn : List (String × List String) :=
  [("comfort", ["lonely", "sad", "ease", "peace", "solace", "heal"]),
   ("mercy", ["forgive", "compassion", "kind", "merciful", "pardon", "grace"]),
   ("wisdom", ["knowledge", "understanding", "insight", "learn", "teach"]),
   ("prayer", ["supplication", "dua", "worship", "invocation", "pray"]),
   ("prophets", ["muhammad", "isa", "musa", "abraham", "david", "solomon"])]

/-- The matching loop of `_analyze_themes` (synthesizer.py:110-114): walk the
terms, append a theme when the term is one of its keywords and the theme was
not yet detected. -/
def detectThemes (terms : List String) : List String :=
  terms.foldl
    (fun acc term =>
      themeHierarchySyn.foldl
        (fun acc2 p => if term ∈ p.2 ∧ p.1 ∉ acc2 then acc2 ++ [p.1] else acc2)
        acc)
    []

/-- `UniversalSynthesizer._analyze_themes` (synthesizer.py:93-118).  The
TF-IDF ranking that picks the five top-scoring terms is floating-point
(`np.argsort` over tf-idf sums), so it is abstracted as the parameter `tt`;
the guard reproduces the `ValueError` that `self.vectorizer.fit(texts)`
raises when the vocabulary is empty. -/
def analyzeThemes (sw : List String) (tt : List String → List String)
    (sources : List Entry) : Except String (List String) :=
  let texts := sources.map (fun s => s.content)
  let tags := sources.foldl (fun acc s => acc ++ s.tags) []
  if texts = [] then .ok []
  else if vocab sw texts = [] then .error "ValueError: empty vocabulary"
  else .ok (detectThemes (tt texts ++ tags))

/-- First-occurrence-ordered key list of a Python `Counter`. -/
def uniqKeys (l : List String) : List String :=
  l.foldl (fun acc x => if x ∈ acc then acc else acc ++ [x]) []

/-- `UniversalSynthesizer._determine_primary_theme` (synthesizer.py:120-127):
`Counter(themes).most_common(1)`, i.e. the highest-count theme, earliest
first occurrence winning ties (`Counter.most_common` sorts stably). -/
def determinePrimaryTheme (themes : List String) : String :=
  match uniqKeys themes with
  | [] => "default"
  | k :: ks =>
    ks.foldl (fun best k2 => if themes.count best < themes.count k2 then k2 else best) k

/-- `UniversalSynthesizer._create_unified_content` (synthesizer.py:76-91).
`supporting.get('source', 'another source')` is modelled by the total
`source` field. -/
def createUnifiedContent : List Entry → String
  | [] => "I need more time to contemplate this question"
  | [p] => p.content
  | p :: s :: _ =>
    p.content ++ "\n\nAs mentioned in " ++ s.source ++ ":\n"
      ++ (s.content.take 200) ++ "..."

/-- The positive lexicon of `_analyze_mood` (synthesizer.py:140). -/
def positiveWords : List String := ["hope", "love", "peace", "joy", "mercy"]

/-- The negative lexicon of `_analyze_mood` (synthesizer.py:141). -/
def negativeWords : List String := ["lonely", "suffering", "pain", "fear", "anger"]

/-- `sum(0.02 for word in ws if word in text)` over a lexicon. -/
def hitSum (text : String) (ws : List String) : ℚ :=
  ((ws.filter (fun w => containsSub text w)).length : ℚ) * (1/50)

/-- `UniversalSynthesizer._analyze_mood` (synthesizer.py:138-149):
`np.clip(score, 0.1, 0.9)` of the lexicon-adjusted 0.5 baseline. -/
def analyzeMood (sources : List Entry) : ℚ :=
  let score := sources.foldl
    (fun sc s => sc + hitSum (lowerStr s.content) positiveWords
                    - hitSum (lowerStr s.content) negativeWords)
    (1/2)
  min (max score (1/10)) (9/10)

/-- The dict returned by `UniversalSynthesizer.blend` (synthesizer.py:45-53).
`detected_themes` is an `Option` because `_empty_response`
(synthesizer.py:151-160) builds its dict without that key: `none` models the
absent key. -/
structure SynthAnswer where
  content : String
  primary_theme : String
  sources : List Entry
  supporting_sources : List Entry
  confidence : ℚ
  mood_score : ℚ
  detected_themes : Option (List String)
deriving Repr, DecidableEq

/-- `UniversalSynthesizer._empty_response` (synthesizer.py:151-160). -/
def emptyResponse : SynthAnswer :=
  { content := "I need more time to contemplate this question"
    primary_theme := "default"
    sources := []
    supporting_sources := []
    confidence := 0
    mood_score := 1/2
    detected_themes := none }

/-- `UniversalSynthesizer.blend` (synthesizer.py:24-53).  `sw` is the
scikit-learn stop-word list and `tt` the floating-point TF-IDF top-term
ranking, both external to the repository (see `vocab`, `analyzeThemes`);
an `ValueError` escaping `_analyze_themes` is the `.error` case. -/
def blend (sw : List String) (tt : List String → List String)
    (verses wisdom : List Entry) : Except String SynthAnswer :=
  if verses = [] ∧ wisdom = [] then .ok emptyResponse
  else
    let allSources := combineSources verses wisdom
    match analyzeThemes sw tt allSources with
    | .error e => .error e
    | .ok themes =>
      .ok { content := createUnifiedContent allSources
            primary_theme := determinePrimaryTheme themes
            sources := allSources.take 1
            supporting_sources := (allSources.drop 1).take 3
            confidence := calculateConfidence allSources
            mood_score := analyzeMood allSources
            detected_themes := some themes }

/-- The caller's two entry lists after `blend` returns: `_combine_sources`
writes `verse['weight'] = ...` and `wisdom_text['weight'] = ...` into the
dicts the caller passed (synthesizer.py:61,68 - in place, no copies), and it
runs whenever `blend` does not take the empty-input early return. -/
def blendMutatedInputs (verses wisdom : List Entry) : List Entry × List Entry :=
  if verses = [] ∧ wisdom = [] then (verses, wisdom)
  else (weightedVerses verses, weightedWisdom wisdom)

/-- The dict returned by `SacredScanner.scan` (sacred_scanner.py:102-107). -/
structure ScanOut where
  verses : List Entry
  wisdom : List Entry
  related : List Entry
  all_results : List Entry
deriving Repr, DecidableEq

/-- `SacredScanner._empty_response` (sacred_scanner.py:249-256). -/
def scanEmptyResponse : ScanOut :=
  { verses := [], wisdom := [], related := [], all_results := [] }

/-- The comparison of `sorted(filtered, key=lambda x: x.get('score', 0),
reverse=True)` (sacred_scanner.py:138 and 204). -/
def scoreGE (a b : Entry) : Prop := sOf b ≤ sOf a

instance : DecidableRel scoreGE := fun a b => by
  unfold scoreGE; infer_instance

instance : IsTotal Entry scoreGE := by
  constructor
  intro a b
  exact le_total (sOf b) (sOf a)

instance : IsTrans Entry scoreGE := by
  constructor
  intro a b c hab hbc
  exact le_trans hbc hab

/-- `SacredScanner._filter_and_rank_results` (sacred_scanner.py:125-138),
with the source/exclude-source test supplied as `keep`. -/
def filterAndRank (keep : Entry → Bool) (results : List Entry) : List Entry :=
  List.insertionSort scoreGE (results.filter keep)

/-- `SacredScanner._extract_keywords` (sacred_scanner.py:206-210):
whitespace-split words of more than three characters that are entirely
alphabetic, lower-cased.  `Char.isAlpha` covers the ASCII range of Python's
`str.isalpha`; the data exercised here is ASCII. -/
def extractKeywords (text : String) : List String :=
  (((charRuns (fun c => !c.isWhitespace) text.data []).map
      (fun t => String.mk t)).filter
    (fun w => decide (3 < w.length) && w.data.all Char.isAlpha)).map lowerStr

/-- `contradiction_map.get(theme, [])` of `_filter_contradictions`
(sacred_scanner.py:154-158,167). -/
def contradictionMap (theme : String) : List String :=
  if theme = "mercy" then ["harsh", "unforgiving", "cruel"]
  else if theme = "comfort" then ["despair", "hopeless", "abandon"]
  else if theme = "truth" then ["falsehood", "lie", "deceive"]
  else []

/-- The `quran_themes` set of `_filter_contradictions`
(sacred_scanner.py:148-151): tags plus extracted keywords of every Quran
verse.  The Python value is a set consumed only by membership-style
iteration, so the list with duplicates is an equivalent model. -/
def quranThemes (quranVerses : List Entry) : List String :=
  quranVerses.foldl (fun acc v => acc ++ v.tags ++ extractKeywords v.content) []

/-- The per-item rejection test of `_filter_contradictions`
(sacred_scanner.py:160-173): some Quran theme has a contradiction keyword
occurring in the item's lower-cased content. -/
def contradictsQuran (themes : List String) (item : Entry) : Bool :=
  themes.any (fun th =>
    (contradictionMap th).any (fun bad => containsSub (lowerStr item.content) bad))

/-- `SacredScanner._filter_contradictions` (sacred_scanner.py:140-177). -/
def filterContradictions (items quranVerses : List Entry) : List Entry :=
  if quranVerses = [] then items
  else items.filter (fun item => !(contradictsQuran (quranThemes quranVerses) item))

/-- `self.thematic_index.get(theme, [])`: the thematic index held as an
association list; a `defaultdict(list)` yields `[]` for missing keys. -/
def indexGet (index : List (String × List Entry)) (theme : String) : List Entry :=
  (((index.find? (fun p => p.1 == theme)).map (fun p => p.2)).getD [])

/-- `SacredScanner.theme_hierarchy` (sacred_scanner.py:59-65), in dict
insertion order. -/
def scannerThemeHierarchy : List (String × List String) :=
  [("mercy", ["forgive", "compassion", "kindness", "pardon", "merciful"]),
   ("comfort", ["lonely", "sad", "ease", "distress", "anxiety", "peace"]),
   ("prophets", ["muhammad", "isa", "musa", "abraham", "david", "solomon"]),
   ("prayer", ["supplication", "dua", "worship", "invocation"]),
   ("patience", ["perseverance", "steadfast", "endurance", "trials"])]

/-- `SacredScanner._expand_quran_themes` (sacred_scanner.py:195-204). -/
def expandQuranThemes (index : List (String × List Entry)) (question : String) :
    List Entry :=
  let qk := extractKeywords question
  let related := scannerThemeHierarchy.foldl
    (fun acc p => if p.2.any (fun kw => qk.contains kw) then acc ++ indexGet index p.1 else acc)
    []
  (List.insertionSort scoreGE related).take 5

/-- `SacredScanner._get_related_results` (sacred_scanner.py:179-193).  The
Python `themes` set is iterated in unspecified order; it is modelled in
first-occurrence order (`uniqKeys`), and no theorem below depends on that
order. -/
def getRelatedResults (index : List (String × List Entry)) (question : String)
    (quranResults : List Entry) : List Entry :=
  if 3 ≤ quranResults.length then
    ((uniqKeys (quranThemes (quranResults.take 3))).foldl
      (fun acc th => acc ++ indexGet index th) []).take 5
  else expandQuranThemes index question

/-- `SacredScanner.scan` (sacred_scanner.py:69-110).  `dbResult` is the
outcome of the collaborator call `self.db.hybrid_search(...)`
(`_get_initial_results`).  When any step raises, control reaches the
handler at sacred_scanner.py:108-110, whose first statement
`logging.getLogger(f"Scan error: ...", exc_info=True)` itself raises
`TypeError` (`logging.getLogger` accepts only a name), so
`return self._empty_response()` is never reached and an exception
propagates out of `scan` (re-raised through the tenacity `@retry`
wrapper); that propagated exception is the `.error` case. -/
def scanCore (index : List (String × List Entry)) (question : String)
    (dbResult : Except String (List Entry)) : Except String ScanOut :=
  match dbResult with
  | .error _ => .error "TypeError: getLogger got an unexpected keyword argument"
  | .ok allResults =>
    let quran := filterAndRank (fun r => r.source == "quran") allResults
    let other := filterAndRank (fun r => r.source != "quran") allResults
    let filtered := filterContradictions other quran
    .ok { verses := quran.take 5
          wisdom := filtered.take 3
          related := (getRelatedResults index question quran).take 5
          all_results := allResults }

/-- One theme of `_refresh_thematic_index` (sacred_scanner.py:217-240): the
three `vector_search` calls run in sequence; the first failure aborts the
theme before anything is stored for it. -/
def refreshTheme (q b k : Except String (List Entry)) : Except String (List Entry) :=
  match q with
  | .error e => .error e
  | .ok qs =>
    match b with
    | .error e => .error e
    | .ok bs =>
      match k with
      | .error e => .error e
      | .ok ks => .ok (qs ++ bs ++ ks)

/-- The themes iterated by `_refresh_thematic_index`
(`self.theme_hierarchy.keys()`, dict insertion order). -/
def scannerThemes : List String :=
  ["mercy", "comfort", "prophets", "prayer", "patience"]

/-- The rebuild loop of `_refresh_thematic_index` (sacred_scanner.py:212-247).
`outcomes th` gives the results of the three collaborator calls for theme
`th` (quran, bible, book).  On a failing theme the handler at
sacred_scanner.py:244-245 runs `logging.getLogger(f"Error indexing theme...",
exc_info=True)`, which itself raises `TypeError`, so the loop aborts and the
exception propagates; the second component records it, the first component
is what was stored in `self.thematic_index` up to that point. -/
def refreshGo
    (outcomes : String →
      Except String (List Entry) × Except String (List Entry) × Except String (List Entry)) :
    List String → List (String × List Entry) →
      List (String × List Entry) × Option String
  | [], acc => (acc, none)
  | th :: rest, acc =>
    match refreshTheme (outcomes th).1 (outcomes th).2.1 (outcomes th).2.2 with
    | .ok entries => refreshGo outcomes rest (acc ++ [(th, entries)])
    | .error _ =>
      (acc, some "TypeError: getLogger got an unexpected keyword argument")

/-- `SacredScanner._refresh_thematic_index` (sacred_scanner.py:212-247) run
over all themes, starting from the fresh empty `defaultdict(list)`
(sacred_scanner.py:214). -/
def refreshThematicIndex
    (outcomes : String →
      Except String (List Entry) × Except String (List Entry) × Except String (List Entry)) :
    List (String × List Entry) × Option String :=
  refreshGo outcomes scannerThemes []

/-- The actual outcome of each `self.db.vector_search(theme, limit=...,
source=...)` call (sacred_scanner.py:219-237): `KnowledgeDatabase` defines
`vector_search(self, query_vector, limit=5)` (knowledge_db.py:509, the later
of its two definitions; the earlier one at knowledge_db.py:416 has the same
parameters), so passing `source=` raises `TypeError` before the body runs. -/
def actualVectorSearchCall : Except String (List Entry) :=
  .error "TypeError: vector_search got an unexpected keyword argument source"

/-- All three per-theme collaborator calls fail as `actualVectorSearchCall`
against the database as implemented. -/
def actualRefreshOutcomes : String →
    Except String (List Entry) × Except String (List Entry) × Except String (List Entry) :=
  fun _ => (actualVectorSearchCall, actualVectorSearchCall, actualVectorSearchCall)

/-- The mutable state of `EmotionalModel`
(emotional_model.py:15-21,163-189): `mood`, `mood_history` and
`last_update`.  Timestamps are rationals (seconds). -/
structure MoodState where
  mood : ℚ
  history : List (ℚ × ℚ)
  lastUpdate : ℚ
deriving Repr, DecidableEq

/-- The state built by `EmotionalModel.__init__` (emotional_model.py:15-21):
baseline mood `0.7`, empty history, `last_update = datetime.now()` (the
session start time `t0`). -/
def initMoodState (t0 : ℚ) : MoodState :=
  { mood := 7/10, history := [], lastUpdate := t0 }

/-- `EmotionalModel.update_mood` (emotional_model.py:163-189) given the
outcome of `analyze_emotional_context`: `some (weight, intensity)` when a
primary emotion was detected, `none` otherwise.  With no detected emotion
the body under `if analysis['primary_emotion']:` is skipped entirely and
the state is unchanged. -/
def updateMood (st : MoodState) (now : ℚ) (analysis : Option (ℚ × ℚ)) : MoodState :=
  match analysis with
  | none => st
  | some (w, i) =>
    let decay := max (3/10) (1 - (now - st.lastUpdate) / 7200)
    let m := max (1/10) (min (9/10) (st.mood * decay + w * i))
    { mood := m, history := st.history ++ [(now, m)], lastUpdate := now }

/-- `EmotionalModel.analyze_emotional_context` (emotional_model.py:54-112)
reduced to what `update_mood` consumes.  The guard at emotional_model.py:72
returns the no-emotion default for empty text; for non-empty text the
lexicon/TF-IDF analysis (floating-point cosine similarity) is abstracted as
the parameter `sem`. -/
def analyzeOutcome (sem : String → Option (ℚ × ℚ)) (text : String) :
    Option (ℚ × ℚ) :=
  if text = "" then none else sem text

/-- `update_mood` as called with a raw user text. -/
def updateMoodText (sem : String → Option (ℚ × ℚ)) (st : MoodState) (now : ℚ)
    (text : String) : MoodState :=
  updateMood st now (analyzeOutcome sem text)

/-- A sequence of `update_mood` calls: each step carries its call time and
the analysis outcome of its input text. -/
def runUpdates (st : MoodState) (steps : List (ℚ × Option (ℚ × ℚ))) : MoodState :=
  steps.foldl (fun s step => updateMood s step.1 step.2) st

/-- A response template, split at its content placeholder. -/
structure Template where
  pre : String
  post : String
deriving Repr, DecidableEq

/-- The canonical fallback phrase of the renderer (spec section 4.5 step 5). -/
def integrateFallback : String := "I need more time to contemplate this question"

/-- Modelled from the spec: `MindIntegrator.integrate`, the renderer that
`backend/main.py` imports from `core.knowledge.mind_integrator`; no class of
that name exists in the repository sources (the module defines only
`DivineKnowledge`).  Per spec section 4.5: select the template pool keyed by
`primary_theme` falling back to the default pool, pick a template by the
injected seed, fill it with the answer content, apply the mood-band
decoration, and if everything is empty emit the canonical fallback phrase. -/
def integrate (pools : List (String × List Template)) (defaultPool : List Template)
    (seed : Nat) (band : Template) (a : SynthAnswer) : String :=
  let pool := (((pools.find? (fun p => p.1 == a.primary_theme)).map
      (fun p => p.2)).getD defaultPool)
  let chosen := pool.getD (seed % (max pool.length 1)) { pre := "", post := "" }
  let filled := chosen.pre ++ a.content ++ chosen.post
  let decorated := band.pre ++ filled ++ band.post
  if decorated = "" then integrateFallback else decorated

/-! ### Concrete data for instantiations -/

/-- A quran verse entry used in concrete instantiations. -/
def wVerse1 : Entry := ⟨"quran", "mercy endures", ["mercy"], some 2, none⟩

/-- A second quran verse entry used in concrete instantiations. -/
def wVerse2 : Entry := ⟨"quran", "hope remains", [], some 1, none⟩

/-- The answer blended from `[wVerse1]`. -/
def wOut1 : SynthAnswer :=
  match blend [] (fun _ => []) [wVerse1] [] with
  | .ok a => a
  | .error _ => emptyResponse

/-- The answer blended from `[wVerse1] ++ [wVerse2]`. -/
def wOut2 : SynthAnswer :=
  match blend [] (fun _ => []) ([wVerse1] ++ [wVerse2]) [] with
  | .ok a => a
  | .error _ => emptyResponse

/-- Quran entry for the contradiction-invariant instantiation. -/
def wQuranMercy : Entry := ⟨"quran", "God is merciful", ["mercy"], some 2, none⟩

/-- Secondary entry whose content holds the anti-keyword "harsh" of the
"mercy" theme. -/
def wHarsh : Entry := ⟨"bible", "be harsh to none", ["mercy"], some 1, none⟩

/-- The scan over the two entries above. -/
def wScanOut : ScanOut :=
  match scanCore [] "mercy" (.ok [wQuranMercy, wHarsh]) with
  | .ok o => o
  | .error _ => scanEmptyResponse

/-- Per-theme query outcomes in which only the bible query of the "mercy"
theme fails (one source failing for one theme, as in the C6 scenario). -/
def c6Outcomes : String →
    Except String (List Entry) × Except String (List Entry) × Except String (List Entry) :=
  fun th =>
    if th = "mercy" then (.ok [wQuranMercy], .error "OperationFailure: transport", .ok [])
    else (.ok [], .ok [], .ok [])

/-- A verse entry without a weight key, as stored in the corpus. -/
def c9Verse : Entry := ⟨"quran", "verse text", [], none, none⟩

/-! ### Helper lemmas -/

lemma themeWeights_le (s : String) : themeWeights s ≤ 3/2 := by
  unfold themeWeights
  split_ifs <;> norm_num

lemma one_le_themeWeights (s : String) : 1 ≤ themeWeights s := by
  unfold themeWeights
  split_ifs <;> norm_num

lemma wOf_of_mem_weighted {verses wisdom : List Entry} {e : Entry}
    (he : e ∈ weightedVerses verses ++ weightedWisdom wisdom) :
    1 ≤ wOf e ∧ wOf e ≤ 3/2 := by
  rcases List.mem_append.mp he with h | h
  · obtain ⟨x, _, rfl⟩ := List.mem_map.mp h
    simp [wOf]
    norm_num
  · obtain ⟨x, _, rfl⟩ := List.mem_map.mp h
    simpa [wOf] using ⟨one_le_themeWeights _, themeWeights_le _⟩

lemma mem_combineSources {verses wisdom : List Entry} {e : Entry} :
    e ∈ combineSources verses wisdom ↔
      e ∈ weightedVerses verses ++ weightedWisdom wisdom := by
  unfold combineSources
  exact (List.perm_insertionSort keyGE _).mem_iff

lemma length_combineSources (verses wisdom : List Entry) :
    (combineSources verses wisdom).length = verses.length + wisdom.length := by
  unfold combineSources
  rw [(List.perm_insertionSort keyGE _).length_eq]
  simp [weightedVerses, weightedWisdom]

lemma wOf_head_max {verses wisdom : List Entry} {h : Entry} {t : List Entry}
    (hc : combineSources verses wisdom = h :: t) :
    ∀ e ∈ h :: t, wOf e ≤ wOf h := by
  have hs : List.Sorted keyGE (combineSources verses wisdom) :=
    List.sorted_insertionSort keyGE _
  rw [hc] at hs
  intro e he
  rcases List.mem_cons.mp he with rfl | he
  · exact le_refl _
  · rcases List.rel_of_sorted_cons hs e he with hlt | ⟨heq, _⟩
    · exact le_of_lt hlt
    · exact le_of_eq heq

lemma calculateConfidence_nonneg (l : List Entry)
    (hw : ∀ e ∈ l, 0 ≤ wOf e) : 0 ≤ calculateConfidence l := by
  cases l with
  | nil => simp [calculateConfidence]
  | cons s0 rest =>
    unfold calculateConfidence
    have h0 : (0 : ℚ) ≤ wOf s0 := hw s0 (List.mem_cons_self _ _)
    have hb : (0 : ℚ) ≤ min (7/10 + ((s0 :: rest).length : ℚ) * (1/20)) (19/20) := by
      have : (0 : ℚ) ≤ ((s0 :: rest).length : ℚ) := by positivity
      have h1 : (0 : ℚ) ≤ 7/10 + ((s0 :: rest).length : ℚ) * (1/20) := by nlinarith
      exact le_min h1 (by norm_num)
    have := mul_nonneg hb h0
    exact le_min this (by norm_num)

/-! ### C2: confidence monotonicity -/

lemma confidence_mono_core (verses wisdom : List Entry) (v : Entry) :
    calculateConfidence (combineSources verses wisdom)
      ≤ calculateConfidence (combineSources (verses ++ [v]) wisdom) := by
  -- the enlarged combined list and its head
  rcases hc2 : combineSources (verses ++ [v]) wisdom with _ | ⟨h2, t2⟩
  · exfalso
    have := length_combineSources (verses ++ [v]) wisdom
    rw [hc2] at this
    simp at this
    omega
  -- the head of the enlarged list has the maximal weight 3/2
  have hvmem : ({ v with weight := some (3/2) } : Entry) ∈ h2 :: t2 := by
    rw [← hc2]
    refine mem_combineSources.mpr (List.mem_append.mpr (Or.inl ?_))
    exact List.mem_map.mpr ⟨v, by simp, rfl⟩
  have hh2mem : h2 ∈ weightedVerses (verses ++ [v]) ++ weightedWisdom wisdom := by
    rw [← mem_combineSources, hc2]
    exact List.mem_cons_self _ _
  have hh2top : wOf h2 = 3/2 := by
    have hle : wOf h2 ≤ 3/2 := (wOf_of_mem_weighted hh2mem).2
    have hge : (3/2 : ℚ) ≤ wOf h2 := by
      have := wOf_head_max hc2 _ hvmem
      simpa [wOf] using this
    linarith
  -- lengths
  have hlen2n : (h2 :: t2).length = verses.length + wisdom.length + 1 := by
    have h3 := length_combineSources (verses ++ [v]) wisdom
    rw [hc2] at h3
    simp at h3 ⊢
    omega
  have hlen2 : ((h2 :: t2).length : ℚ) = (verses.length : ℚ) + (wisdom.length : ℚ) + 1 := by
    rw [hlen2n]
    push_cast
    ring
  rcases hc1 : combineSources verses wisdom with _ | ⟨h1, t1⟩
  · -- previously empty: confidence was 0, the new one is nonnegative
    rw [calculateConfidence]
    refine calculateConfidence_nonneg _ ?_
    intro e he
    rw [← hc2] at he
    have := (wOf_of_mem_weighted (mem_combineSources.mp he)).1
    linarith
  · -- previously nonempty
    have hh1mem : h1 ∈ weightedVerses verses ++ weightedWisdom wisdom := by
      rw [← mem_combineSources, hc1]
      exact List.mem_cons_self _ _
    have hw1 := wOf_of_mem_weighted hh1mem
    have hlen1 : ((h1 :: t1).length : ℚ) = (verses.length : ℚ) + (wisdom.length : ℚ) := by
      have := length_combineSources verses wisdom
      rw [hc1] at this
      rw [this]
      push_cast
      ring
    have e1 : calculateConfidence (h1 :: t1)
        = min (min (7/10 + ((h1 :: t1).length : ℚ) * (1/20)) (19/20) * wOf h1) 1 := rfl
    have e2 : calculateConfidence (h2 :: t2)
        = min (min (7/10 + ((h2 :: t2).length : ℚ) * (1/20)) (19/20) * wOf h2) 1 := rfl
    rw [e1, e2, hh2top, hlen1, hlen2]
    have hnv : (0 : ℚ) ≤ (verses.length : ℚ) := by positivity
    have hnw : (0 : ℚ) ≤ (wisdom.length : ℚ) := by positivity
    set n : ℚ := (verses.length : ℚ) + (wisdom.length : ℚ) with hn
    have hbase1 : (0 : ℚ) ≤ min (7/10 + n * (1/20)) (19/20) := by
      refine le_min ?_ (by norm_num)
      nlinarith
    have hbase2 : min (7/10 + n * (1/20)) (19/20)
        ≤ min (7/10 + (n + 1) * (1/20)) (19/20) := by
      refine min_le_min ?_ (le_refl _)
      nlinarith
    refine min_le_min ?_ (le_refl _)
    have hb2nonneg : (0 : ℚ) ≤ min (7/10 + (n + 1) * (1/20)) (19/20) :=
      le_trans hbase1 hbase2
    exact mul_le_mul hbase2 hw1.2 (by linarith [hw1.1]) hb2nonneg

lemma blend_confidence_eq {sw : List String} {tt : List String → List String}
    {verses wisdom : List Entry} {a : SynthAnswer}
    (h : blend sw tt verses wisdom = .ok a) :
    a.confidence = calculateConfidence (combineSources verses wisdom) := by
  by_cases hc : verses = [] ∧ wisdom = []
  · rw [blend, if_pos hc] at h
    cases h
    obtain ⟨rfl, rfl⟩ := hc
    simp [emptyResponse, combineSources, weightedVerses, weightedWisdom,
      calculateConfidence]
  · rw [blend, if_neg hc] at h
    dsimp only at h
    rcases hm : analyzeThemes sw tt (combineSources verses wisdom) with e | themes
    · rw [hm] at h
      simp at h
    · rw [hm] at h
      simp only [Except.ok.injEq] at h
      subst h
      rfl

/-- C2.  Confidence monotonicity: appending one more primary-source (quran)
entry to the `verses` list never decreases the confidence
`min(min(0.7 + 0.05 n, 0.95) * w0, 1.0)` computed by
`UniversalSynthesizer._calculate_confidence` over the
`(weight, score)`-descending combined list, and hence never decreases the
`confidence` field of `UniversalSynthesizer.blend`'s output. -/
theorem confidence_monotone_quran (sw : List String) (tt : List String → List String)
    (verses wisdom : List Entry) (v : Entry) :
    calculateConfidence (combineSources verses wisdom)
      ≤ calculateConfidence (combineSources (verses ++ [v]) wisdom)
    ∧ ∀ a a2 : SynthAnswer, blend sw tt verses wisdom = .ok a →
        blend sw tt (verses ++ [v]) wisdom = .ok a2 →
        a.confidence ≤ a2.confidence := by
  refine ⟨confidence_mono_core verses wisdom v, ?_⟩
  intro a a2 h1 h2
  rw [blend_confidence_eq h1, blend_confidence_eq h2]
  exact confidence_mono_core verses wisdom v

/-! ### C4: empty-input fallback -/

/-- C4.  Empty-input fallback: with both retrieved lists empty,
`UniversalSynthesizer.blend` returns the canonical
"I need more time to contemplate this question" answer with confidence 0,
primary theme "default", mood score 0.5, and empty sources and
supporting sources. -/
theorem empty_input_fallback (sw : List String) (tt : List String → List String) :
    blend sw tt [] [] = .ok emptyResponse
    ∧ emptyResponse.content = "I need more time to contemplate this question"
    ∧ emptyResponse.confidence = 0
    ∧ emptyResponse.primary_theme = "default"
    ∧ emptyResponse.mood_score = 1/2
    ∧ emptyResponse.sources = []
    ∧ emptyResponse.supporting_sources = [] := by
  refine ⟨?_, rfl, rfl, rfl, rfl, rfl, rfl⟩
  rw [blend, if_pos ⟨rfl, rfl⟩]

/-! ### C7: mood bounds -/

lemma updateMood_bounds (st : MoodState) (now : ℚ) (o : Option (ℚ × ℚ))
    (h1 : 1/10 ≤ st.mood) (h2 : st.mood ≤ 9/10) :
    1/10 ≤ (updateMood st now o).mood ∧ (updateMood st now o).mood ≤ 9/10 := by
  cases o with
  | none => exact ⟨h1, h2⟩
  | some p =>
    obtain ⟨w, i⟩ := p
    constructor
    · simp only [updateMood]
      exact le_max_left _ _
    · simp only [updateMood]
      exact max_le (by norm_num) (min_le_left _ _)

lemma runUpdates_bounds (steps : List (ℚ × Option (ℚ × ℚ))) :
    ∀ st : MoodState, 1/10 ≤ st.mood → st.mood ≤ 9/10 →
      1/10 ≤ (runUpdates st steps).mood ∧ (runUpdates st steps).mood ≤ 9/10 := by
  induction steps with
  | nil => intro st h1 h2; exact ⟨h1, h2⟩
  | cons s rest ih =>
    intro st h1 h2
    have h := updateMood_bounds st s.1 s.2 h1 h2
    simpa [runUpdates, List.foldl] using ih _ h.1 h.2

/-- C7.  Mood bounds: starting from the session-start baseline 0.7, after
every finite sequence of `EmotionalModel.update_mood` calls - with
arbitrary call times (hence arbitrary elapsed times and decay factors) and
arbitrary analysis outcomes, covering all input texts - the mood stays
within [0.1, 0.9]. -/
theorem mood_bounds (t0 : ℚ) (steps : List (ℚ × Option (ℚ × ℚ))) :
    1/10 ≤ (runUpdates (initMoodState t0) steps).mood
    ∧ (runUpdates (initMoodState t0) steps).mood ≤ 9/10 :=
  runUpdates_bounds steps (initMoodState t0)
    (by norm_num [initMoodState]) (by norm_num [initMoodState])

/-- Witness for C2 at a concrete instantiation. -/
theorem confidence_monotone_quran_witness :
    blend [] (fun _ => []) [wVerse1] [] = .ok wOut1
    ∧ blend [] (fun _ => []) ([wVerse1] ++ [wVerse2]) [] = .ok wOut2
    ∧ wOut1.confidence ≤ wOut2.confidence := by
  have h1 : blend [] (fun _ => []) [wVerse1] [] = .ok wOut1 := by
    with_unfolding_all rfl
  have h2 : blend [] (fun _ => []) ([wVerse1] ++ [wVerse2]) [] = .ok wOut2 := by
    with_unfolding_all rfl
  exact ⟨h1, h2,
    (confidence_monotone_quran [] (fun _ => []) [wVerse1] [] wVerse2).2 wOut1 wOut2 h1 h2⟩

/-! ### C1: pipeline totality and shape -/

lemma integrate_ne_empty (pools : List (String × List Template))
    (defaultPool : List Template) (seed : Nat) (band : Template) (a : SynthAnswer) :
    integrate pools defaultPool seed band a ≠ "" := by
  unfold integrate
  dsimp only
  split
  · decide
  · assumption

/-- C1 (counterexample).  At the concrete input of two empty retrieved
lists, `blend` returns the `_empty_response` record, whose dict carries no
`detected_themes` key (`none`), so the output is not a `SynthesizedAnswer`
with all seven fields of the specified record; and at a single entry of
empty content `blend` raises (`TfidfVectorizer.fit` on an empty vocabulary),
so an exception escapes the pipeline. -/
theorem pipeline_fields_cex :
    blend [] (fun _ => []) [] [] = .ok emptyResponse
    ∧ emptyResponse.detected_themes = none
    ∧ blend [] (fun _ => []) [⟨"quran", "", [], none, none⟩] []
        = .error "ValueError: empty vocabulary" :=
  ⟨rfl, rfl, rfl⟩

/-- C1 (amended).  For inputs that do not hit the empty-input early return
and whose combined contents yield a non-empty vectorizer vocabulary,
`blend` succeeds and returns an answer with the `detected_themes` key
present, non-empty content, confidence in [0, 1] and mood score in
[0.1, 0.9], and the (spec-modelled) integrator renders it to a non-empty
string; the empty-input fallback omits `detected_themes`, and with an empty
vocabulary `blend` raises instead. -/
theorem pipeline_fields (sw : List String) (tt : List String → List String)
    (pools : List (String × List Template)) (defaultPool : List Template)
    (seed : Nat) (band : Template) (verses wisdom : List Entry)
    (hne : ¬(verses = [] ∧ wisdom = []))
    (hvoc : vocab sw ((combineSources verses wisdom).map (fun s => s.content)) ≠ []) :
    ∃ a, blend sw tt verses wisdom = .ok a
      ∧ a.detected_themes ≠ none
      ∧ a.content ≠ ""
      ∧ 0 ≤ a.confidence ∧ a.confidence ≤ 1
      ∧ 1/10 ≤ a.mood_score ∧ a.mood_score ≤ 9/10
      ∧ integrate pools defaultPool seed band a ≠ "" := by
  rcases hc : combineSources verses wisdom with _ | ⟨p, rest⟩
  · exfalso
    have hl := length_combineSources verses wisdom
    rw [hc] at hl
    simp at hl
    have hv : verses.length = 0 := by omega
    have hw2 : wisdom.length = 0 := by omega
    exact hne ⟨List.length_eq_zero.mp hv, List.length_eq_zero.mp hw2⟩
  rw [hc] at hvoc
  have ht : ((p :: rest).map (fun s => s.content)) ≠ [] := by simp
  have hA : analyzeThemes sw tt (p :: rest)
      = .ok (detectThemes (tt ((p :: rest).map (fun s => s.content))
          ++ (p :: rest).foldl (fun acc s => acc ++ s.tags) [])) := by
    unfold analyzeThemes
    dsimp only
    rw [if_neg ht, if_neg hvoc]
  have hb : ∃ themes, blend sw tt verses wisdom = .ok
      { content := createUnifiedContent (p :: rest)
        primary_theme := determinePrimaryTheme themes
        sources := (p :: rest).take 1
        supporting_sources := ((p :: rest).drop 1).take 3
        confidence := calculateConfidence (p :: rest)
        mood_score := analyzeMood (p :: rest)
        detected_themes := some themes } :=
    ⟨detectThemes (tt ((p :: rest).map (fun s => s.content))
        ++ (p :: rest).foldl (fun acc s => acc ++ s.tags) []), by
      rw [blend, if_neg hne]
      dsimp only
      rw [hc, hA]⟩
  obtain ⟨themes, hb⟩ := hb
  refine ⟨_, hb, by simp, ?_, ?_, ?_, ?_, ?_, integrate_ne_empty _ _ _ _ _⟩
  · -- content is non-empty
    show createUnifiedContent (p :: rest) ≠ ""
    cases rest with
    | nil =>
      intro h
      apply hvoc
      simp only [List.map]
      have hp0 : p.content = "" := h
      rw [hp0]
      rfl
    | cons s rest2 =>
      intro h
      have hlen := congrArg String.length h
      simp [createUnifiedContent, String.length_append] at hlen
      exact absurd hlen.2 (by decide)
  · -- confidence is nonnegative
    show 0 ≤ calculateConfidence (p :: rest)
    refine calculateConfidence_nonneg _ ?_
    intro e he
    rw [← hc] at he
    have := (wOf_of_mem_weighted (mem_combineSources.mp he)).1
    linarith
  · -- confidence is at most 1
    show calculateConfidence (p :: rest) ≤ 1
    have e1 : calculateConfidence (p :: rest)
        = min (min (7/10 + ((p :: rest).length : ℚ) * (1/20)) (19/20) * wOf p) 1 := rfl
    rw [e1]
    exact min_le_right _ _
  · -- mood score is at least 0.1
    show 1/10 ≤ analyzeMood (p :: rest)
    unfold analyzeMood
    dsimp only
    exact le_min (le_max_right _ _) (by norm_num)
  · -- mood score is at most 0.9
    show analyzeMood (p :: rest) ≤ 9/10
    unfold analyzeMood
    dsimp only
    exact min_le_right _ _

/-- Witness for C1 (amended) at a concrete instantiation. -/
theorem pipeline_fields_witness :
    (¬(([wVerse1] : List Entry) = [] ∧ ([] : List Entry) = []))
    ∧ vocab [] ((combineSources [wVerse1] []).map (fun s => s.content)) ≠ []
    ∧ ∃ a, blend [] (fun _ => []) [wVerse1] [] = .ok a
        ∧ a.detected_themes ≠ none
        ∧ a.content ≠ ""
        ∧ 0 ≤ a.confidence ∧ a.confidence ≤ 1
        ∧ 1/10 ≤ a.mood_score ∧ a.mood_score ≤ 9/10
        ∧ integrate [] [] 0 ⟨"", ""⟩ a ≠ "" := by
  have h1 : ¬(([wVerse1] : List Entry) = [] ∧ ([] : List Entry) = []) := by simp
  have h2 : vocab [] ((combineSources [wVerse1] []).map (fun s => s.content)) ≠ [] := by
    with_unfolding_all decide
  exact ⟨h1, h2, pipeline_fields [] (fun _ => []) [] [] 0 ⟨"", ""⟩ [wVerse1] [] h1 h2⟩

/-! ### C3: contradiction invariant -/

lemma quranThemes_aux (t : String) :
    ∀ (l : List Entry) (acc : List String),
      (t ∈ acc ∨ ∃ v ∈ l, t ∈ v.tags) →
      t ∈ l.foldl (fun acc v => acc ++ v.tags ++ extractKeywords v.content) acc := by
  intro l
  induction l with
  | nil =>
    intro acc h
    rcases h with h | ⟨v, hv, _⟩
    · exact h
    · simp at hv
  | cons x xs ih =>
    intro acc h
    show t ∈ xs.foldl _ (acc ++ x.tags ++ extractKeywords x.content)
    apply ih
    rcases h with h | ⟨v, hv, htv⟩
    · exact Or.inl (List.mem_append.mpr (Or.inl (List.mem_append.mpr (Or.inl h))))
    · rcases List.mem_cons.mp hv with rfl | hv2
      · exact Or.inl (List.mem_append.mpr (Or.inl (List.mem_append.mpr (Or.inr htv))))
      · exact Or.inr ⟨v, hv2, htv⟩

lemma mem_quranThemes_of_tag {l : List Entry} {v : Entry} (hv : v ∈ l)
    {t : String} (ht : t ∈ v.tags) : t ∈ quranThemes l :=
  quranThemes_aux t l [] (Or.inr ⟨v, hv, ht⟩)

/-- C3.  Contradiction invariant: any entry sharing a tag `t` with a
selected primary (quran) verse, where `t` is a theme of the configured
anti-keyword map and the entry's content contains one of the map's words
for `t`, is rejected by `SacredScanner._filter_contradictions` and so never
appears in the `wisdom` list of `SacredScanner.scan`'s result. -/
theorem contradiction_invariant (index : List (String × List Entry))
    (question : String) (allResults : List Entry) (p e : Entry) (t : String)
    (out : ScanOut)
    (hscan : scanCore index question (.ok allResults) = .ok out)
    (hp : p ∈ out.verses) (hpt : t ∈ p.tags) (_het : t ∈ e.tags)
    (hbad : ∃ w ∈ contradictionMap t, containsSub (lowerStr e.content) w = true) :
    e ∉ out.wisdom := by
  simp only [scanCore] at hscan
  injection hscan with hscan
  subst hscan
  simp only at hp ⊢
  intro he
  have hpq : p ∈ filterAndRank (fun r => r.source == "quran") allResults :=
    List.mem_of_mem_take hp
  have hqne : filterAndRank (fun r => r.source == "quran") allResults ≠ [] :=
    List.ne_nil_of_mem hpq
  have he2 : e ∈ filterContradictions
      (filterAndRank (fun r => r.source != "quran") allResults)
      (filterAndRank (fun r => r.source == "quran") allResults) :=
    List.mem_of_mem_take he
  rw [filterContradictions, if_neg hqne] at he2
  have hkeep := (List.mem_filter.mp he2).2
  have hcontr : contradictsQuran
      (quranThemes (filterAndRank (fun r => r.source == "quran") allResults)) e = true := by
    apply List.any_eq_true.mpr
    refine ⟨t, mem_quranThemes_of_tag hpq hpt, ?_⟩
    apply List.any_eq_true.mpr
    obtain ⟨w, hw, hws⟩ := hbad
    exact ⟨w, hw, hws⟩
  rw [hcontr] at hkeep
  simp at hkeep

/-- Witness for C3 at a concrete instantiation. -/
theorem contradiction_invariant_witness :
    scanCore [] "mercy" (.ok [wQuranMercy, wHarsh]) = .ok wScanOut
    ∧ wQuranMercy ∈ wScanOut.verses
    ∧ "mercy" ∈ wQuranMercy.tags
    ∧ "mercy" ∈ wHarsh.tags
    ∧ (∃ w ∈ contradictionMap "mercy", containsSub (lowerStr wHarsh.content) w = true)
    ∧ wHarsh ∉ wScanOut.wisdom := by
  have h0 : scanCore [] "mercy" (.ok [wQuranMercy, wHarsh]) = .ok wScanOut := by
    with_unfolding_all rfl
  have h1 : wQuranMercy ∈ wScanOut.verses := by with_unfolding_all decide
  have h2 : "mercy" ∈ wQuranMercy.tags := by decide
  have h3 : "mercy" ∈ wHarsh.tags := by decide
  have h4 : ∃ w ∈ contradictionMap "mercy", containsSub (lowerStr wHarsh.content) w = true :=
    ⟨"harsh", by decide, by decide⟩
  exact ⟨h0, h1, h2, h3, h4,
    contradiction_invariant [] "mercy" [wQuranMercy, wHarsh] wQuranMercy wHarsh
      "mercy" wScanOut h0 h1 h2 h3 h4⟩

/-! ### C5: scan degradation -/

/-- C5.  Graceful scan degradation, as the code actually behaves: on an
empty corpus (`hybrid_search` returning `[]`) `scan` does return the
all-empty result; but when an internal step raises, the `except` handler
itself raises `TypeError` (its `logging.getLogger(msg, exc_info=True)` call),
so `scan` propagates an exception instead of returning the all-empty
result. -/
theorem scan_failure_behavior :
    scanCore [] "anything" (.error "PyMongoError: connection failure")
        = .error "TypeError: getLogger got an unexpected keyword argument"
    ∧ scanCore [] "anything" (.ok []) = .ok scanEmptyResponse :=
  ⟨rfl, rfl⟩

/-! ### C6: thematic rebuild under partial failure -/

/-- C6.  Rebuild under a single-source failure, as the code actually
behaves: when the bible query of the "mercy" theme fails, nothing at all is
stored (the quran results for that theme are dropped) and the rebuild
aborts with a propagated `TypeError` from the handler's own
`logging.getLogger(..., exc_info=True)` call, instead of storing the other
sources and continuing. -/
theorem refresh_abort_on_theme_failure :
    refreshThematicIndex c6Outcomes
        = ([], some "TypeError: getLogger got an unexpected keyword argument")
    ∧ indexGet [] "mercy" = [] :=
  ⟨rfl, rfl⟩

/-! ### C8: mood update semantics -/

/-- C8 (counterexample).  `update_mood` does not update on every call: for
the empty input text, `analyze_emotional_context` reports no primary
emotion (emotional_model.py:72) and `update_mood` leaves the state
untouched - no decay, no history append, no `last_update` reset. -/
theorem mood_update_every_turn_cex :
    updateMoodText (fun _ => some (1, 1)) (initMoodState 0) 100 "" = initMoodState 0
    ∧ (updateMoodText (fun _ => some (1, 1)) (initMoodState 0) 100 "").history = [] :=
  ⟨rfl, rfl⟩

/-- C8 (amended).  On calls where the analysis detects a primary emotion,
`update_mood` applies the decay factor `max(0.3, 1 - elapsed/7200)`, sets
`mood = clip(mood * decay + weight * intensity, 0.1, 0.9)`, appends the
`(timestamp, mood)` pair and resets `last_update`; on calls with no
detected emotion - in particular for empty input text - the state is
unchanged. -/
theorem mood_update_semantics (st : MoodState) (now w i : ℚ)
    (sem : String → Option (ℚ × ℚ)) (text : String) :
    (updateMood st now (some (w, i)) =
      { mood := max (1/10) (min (9/10)
          (st.mood * max (3/10) (1 - (now - st.lastUpdate) / 7200) + w * i))
        history := st.history ++ [(now, max (1/10) (min (9/10)
          (st.mood * max (3/10) (1 - (now - st.lastUpdate) / 7200) + w * i)))]
        lastUpdate := now })
    ∧ updateMood st now none = st
    ∧ (text = "" → updateMoodText sem st now text = st) := by
  refine ⟨rfl, rfl, ?_⟩
  intro h
  subst h
  rfl

/-- Witness for C8 (amended) at a concrete instantiation. -/
theorem mood_update_semantics_witness :
    ("" : String) = ""
    ∧ updateMoodText (fun _ => some (1, 1)) (initMoodState 0) 5 "" = initMoodState 0 :=
  ⟨rfl, (mood_update_semantics (initMoodState 0) 5 1 1 (fun _ => some (1, 1)) "").2.2 rfl⟩

/-! ### C9: frame condition on corpus entries -/

/-- C9 (counterexample).  `blend` mutates the caller's entries: after the
call the verse dict has gained a `weight` key, so the list the caller
passed in is changed. -/
theorem corpus_read_only_cex :
    (blendMutatedInputs [c9Verse] []).1 ≠ [c9Verse] := by
  intro h
  have h1 : (blendMutatedInputs [c9Verse] []).1
      = [{ c9Verse with weight := some (3/2) }] := rfl
  rw [h1] at h
  injection h with h2 _
  have h3 := congrArg Entry.weight h2
  simp [c9Verse] at h3

/-- C9 (amended).  Whenever `blend` does not take the empty-input early
return, it writes the `weight` key into every entry dict passed in - 1.5
on each verse, the per-source weight on each wisdom entry - in place,
leaving every other field unchanged. -/
theorem blend_weight_mutation (verses wisdom : List Entry)
    (hne : ¬(verses = [] ∧ wisdom = [])) :
    (blendMutatedInputs verses wisdom).1
        = verses.map (fun v => ⟨v.source, v.content, v.tags, v.score, some (3/2)⟩)
    ∧ (blendMutatedInputs verses wisdom).2
        = wisdom.map (fun w => ⟨w.source, w.content, w.tags, w.score,
            some (themeWeights (lowerStr w.source))⟩) := by
  unfold blendMutatedInputs
  rw [if_neg hne]
  exact ⟨rfl, rfl⟩

/-- Witness for C9 (amended) at a concrete instantiation. -/
theorem blend_weight_mutation_witness :
    (¬(([c9Verse] : List Entry) = [] ∧ ([] : List Entry) = []))
    ∧ (blendMutatedInputs [c9Verse] []).1
        = [c9Verse].map (fun v => ⟨v.source, v.content, v.tags, v.score, some (3/2)⟩) := by
  have h : ¬(([c9Verse] : List Entry) = [] ∧ ([] : List Entry) = []) := by simp
  exact ⟨h, (blend_weight_mutation [c9Verse] [] h).1⟩

/-! ### C10: the thematic index is dead -/

lemma foldl_indexGet_nil (l : List String) (acc : List Entry) :
    l.foldl (fun acc th => acc ++ indexGet [] th) acc = acc := by
  induction l generalizing acc with
  | nil => rfl
  | cons x xs ih => simp [indexGet, ih acc]

lemma foldl_expand_nil (c : String × List String → Bool) :
    ∀ (l : List (String × List String)) (acc : List Entry),
      l.foldl (fun acc p => if c p then acc ++ indexGet [] p.1 else acc) acc = acc := by
  intro l
  induction l with
  | nil => intro acc; rfl
  | cons x xs ih =>
    intro acc
    show xs.foldl _ (if c x then acc ++ indexGet [] x.1 else acc) = acc
    rcases Bool.eq_false_or_eq_true (c x) with hx | hx <;>
      simp [hx, indexGet, ih acc]

lemma expandQuranThemes_nil (q : String) : expandQuranThemes [] q = [] := by
  unfold expandQuranThemes
  dsimp only
  rw [foldl_expand_nil]
  rfl

lemma getRelatedResults_nil (q : String) (quran : List Entry) :
    getRelatedResults [] q quran = [] := by
  unfold getRelatedResults
  split
  · rw [foldl_indexGet_nil]
    rfl
  · exact expandQuranThemes_nil q

/-- C10 (counterexample).  The per-theme `vector_search(..., source=...)`
calls do all fail (`vector_search` takes no `source` parameter), but the
failure is not swallowed: the handler's own `logging.getLogger(...,
exc_info=True)` call raises, so `_refresh_thematic_index` propagates a
`TypeError` on the very first theme (and `SacredScanner.__init__`, which
calls it, never completes). -/
theorem thematic_dead_index_cex :
    (refreshThematicIndex actualRefreshOutcomes).2
        = some "TypeError: getLogger got an unexpected keyword argument"
    ∧ (refreshThematicIndex actualRefreshOutcomes).2 ≠ none := by
  refine ⟨rfl, ?_⟩
  intro h
  rw [show (refreshThematicIndex actualRefreshOutcomes).2
      = some "TypeError: getLogger got an unexpected keyword argument" from rfl] at h
  exact Option.some_ne_none _ h

/-- C10 (amended).  Against the database as implemented every per-theme
indexing call fails, the rebuild aborts on the first theme with a
propagated `TypeError` and stores nothing, so the thematic index stays
empty - every theme lookup yields `[]` - and a scan over any corpus state
with that empty index has an empty `related` list. -/
theorem thematic_dead_index (question : String) (allResults : List Entry)
    (out : ScanOut)
    (h : scanCore [] question (.ok allResults) = .ok out) :
    refreshThematicIndex actualRefreshOutcomes
        = ([], some "TypeError: getLogger got an unexpected keyword argument")
    ∧ (∀ th, indexGet [] th = [])
    ∧ out.related = [] := by
  refine ⟨rfl, fun th => rfl, ?_⟩
  simp only [scanCore] at h
  injection h with h
  subst h
  simp only
  rw [getRelatedResults_nil]
  rfl

/-- Witness for C10 (amended) at a concrete instantiation. -/
theorem thematic_dead_index_witness :
    scanCore [] "x" (.ok []) = .ok scanEmptyResponse
    ∧ (refreshThematicIndex actualRefreshOutcomes
        = ([], some "TypeError: getLogger got an unexpected keyword argument")
      ∧ (∀ th, indexGet [] th = [])
      ∧ scanEmptyResponse.related = []) := by
  have h : scanCore [] "x" (.ok []) = .ok scanEmptyResponse := rfl
  exact ⟨h, thematic_dead_index "x" [] scanEmptyResponse h⟩

end AdamOS
